import Mathlib

/-!
# Verification of the OIB_Sleep bracelet firmware (src/pulsera/src/main.cpp)

Shallow embedding of the sensor-acquisition and telemetry pipeline of the
single-file firmware sketch.  C `float`/`double` arithmetic is modelled by
exact rationals; machine `long`/`unsigned long` millisecond timestamps by
`ℤ`/`ℕ`; the `byte` ring-buffer slots by `ℕ` values (all stores are within
`0..255`, as proved below).
-/

namespace Pulsera

/-! ## Heart-rate estimator state (main.cpp lines 33-38) -/

/-- State of the heart-rate estimator: `byte rates[4]`, `byte rateSpot`,
`long lastBeat`, `float beatsPerMinute`, `int beatAvg`.  `rateSpot` is kept
in `Fin 4` because the code reduces it modulo `RATE_SIZE = 4` after every
write and it starts at 0. -/
structure HeartState where
  rates : Fin 4 → ℕ
  rateSpot : Fin 4
  lastBeat : ℤ
  beatsPerMinute : ℚ
  beatAvg : ℕ
deriving DecidableEq

/-- Boot-time state: globals are zero-initialized (main.cpp lines 34-38). -/
def initialHeart : HeartState :=
  { rates := fun _ => 0, rateSpot := 0, lastBeat := 0
    beatsPerMinute := 0, beatAvg := 0 }

/-- Sum of the four ring-buffer slots, as in the `for` loop of
main.cpp lines 190-191. -/
def ratesSum (r : Fin 4 → ℕ) : ℕ := r 0 + r 1 + r 2 + r 3

/-- The instantaneous BPM computed on a detected beat:
`beatsPerMinute = 60 / (delta / 1000.0)` with `delta = millis() - lastBeat`
(main.cpp lines 178-181), modelled exactly in `ℚ`. -/
def bpmOf (lastBeat t1 : ℤ) : ℚ := 60 / (((t1 - lastBeat : ℤ) : ℚ) / 1000)

/-- One detected beat (the `checkForBeat` branch, main.cpp lines 176-194).
`t1` is the value of `millis()` read for `delta`, `t2` the value stored into
`lastBeat`; the code calls `millis()` twice, so they are kept separate.  The
gate is `beatsPerMinute < 255 && beatsPerMinute > 20`; on acceptance the code
stores `(byte)beatsPerMinute` (truncation of a value in `(20, 255)`), advances
`rateSpot` modulo 4 and recomputes `beatAvg` as the integer-divided slot sum. -/
def processBeat (s : HeartState) (t1 t2 : ℤ) : HeartState :=
  if bpmOf s.lastBeat t1 < 255 ∧ 20 < bpmOf s.lastBeat t1 then
    { rates := Function.update s.rates s.rateSpot (Int.toNat ⌊bpmOf s.lastBeat t1⌋)
      rateSpot := s.rateSpot + 1
      lastBeat := t2
      beatsPerMinute := bpmOf s.lastBeat t1
      beatAvg :=
        ratesSum (Function.update s.rates s.rateSpot
          (Int.toNat ⌊bpmOf s.lastBeat t1⌋)) / 4 }
  else
    { s with lastBeat := t2, beatsPerMinute := bpmOf s.lastBeat t1 }

/-- The estimator state reached from boot after a list of detected beats. -/
def runBeats (evs : List (ℤ × ℤ)) : HeartState :=
  evs.foldl (fun s e => processBeat s e.1 e.2) initialHeart

/-- Four consecutive detected beats, `delta = 2800, 2800, 2800, 2700` ms, so
the accepted BPMs are `150/7 ≈ 21.43` (thrice) and `200/9 ≈ 22.22`: the ring
buffer ends as `[21, 21, 21, 22]` after being written 4 times. -/
def fourBeats : List (ℤ × ℤ) := [(2800, 2800), (5600, 5600), (8400, 8400), (11100, 11100)]

/-- One detected beat with `delta = 2900` ms: the accepted BPM is
`600/29 ≈ 20.69`, stored as the byte `20`. -/
def oneSlowBeat : List (ℤ × ℤ) := [(2900, 2900)]

/-! ## Invariants of the estimator -/

/-- The averaging invariant: `beatAvg` is the integer (floored) mean of the
four slots. -/
def AvgInv (s : HeartState) : Prop := s.beatAvg = ratesSum s.rates / 4

/-- The slot-range invariant: every slot is either still its initial `0` or
a stored truncated BPM in `[20, 254]`. -/
def SlotInv (s : HeartState) : Prop :=
  ∀ i : Fin 4, s.rates i = 0 ∨ (20 ≤ s.rates i ∧ s.rates i ≤ 254)

/-! ## Modelled C float values (for the HTU21D validity checks) -/

/-- A C `float` as read from a sensor: NaN, an infinity, or (the exact
rational value of) a finite float. -/
inductive FVal where
  | nan
  | inf (pos : Bool)
  | fin (q : ℚ)
deriving DecidableEq

/-- The C `isnan` predicate. -/
def FVal.isnanB : FVal → Bool
  | .nan => true
  | _ => false

/-- The C comparison `v >= c` (false on NaN). -/
def FVal.geQ : FVal → ℚ → Bool
  | .nan, _ => false
  | .inf b, _ => b
  | .fin q, c => decide (c ≤ q)

/-- The C comparison `v <= c` (false on NaN). -/
def FVal.leQ : FVal → ℚ → Bool
  | .nan, _ => false
  | .inf b, _ => !b
  | .fin q, c => decide (q ≤ c)

/-- The check `!isnan(temperatura) && temperatura >= -40 && temperatura <= 125`
(main.cpp line 151). -/
def tempValida (t : FVal) : Bool := !t.isnanB && t.geQ (-40) && t.leQ 125

/-- The check `!isnan(humedad) && humedad >= 0 && humedad <= 100`
(main.cpp line 157). -/
def humValida (h : FVal) : Bool := !h.isnanB && h.geQ 0 && h.leQ 100

/-! ## Payload formatting -/

/-- Left-pad a digit string with zeros to `k` characters. -/
def padZeros (k : ℕ) (s : String) : String :=
  String.mk (List.replicate (k - s.length) '0') ++ s

/-- Arduino `String(value, prec)`: fixed-point decimal with `prec` fractional
digits, rounded to nearest. -/
def fmtFixed (prec : ℕ) (q : ℚ) : String :=
  let scaled : ℤ := round (q * (10 : ℚ) ^ prec)
  let n := scaled.natAbs
  (if scaled < 0 then "-" else "") ++ toString (n / 10 ^ prec) ++ "." ++
    padZeros prec (toString (n % 10 ^ prec))

/-- Rendering of an `FVal` by `String(value, prec)` (the non-finite cases are
never reached by valid readings). -/
def fmtFVal (prec : ℕ) : FVal → String
  | .nan => "nan"
  | .inf b => if b then "inf" else "-inf"
  | .fin q => fmtFixed prec q

/-- The C cast `(int)` of a float: truncation toward zero. -/
def truncInt (q : ℚ) : ℤ := if q < 0 then -⌊-q⌋ else ⌊q⌋

/-- Computable stand-in for the float `sqrt` used only to render the
`accel_mag` and JSON `mag` payloads: √q to three decimal places.  The
movement comparison is embedded exactly by squaring instead. -/
def sqrtQ (q : ℚ) : ℚ := (Nat.sqrt (Int.toNat ⌊q * 1000000⌋) : ℚ) / 1000

/-! ## Per-tick inputs and system state -/

/-- Everything the environment hands the loop body during one acquisition
tick: sensor reads, beat detection, timestamps and link status. -/
structure TickInput where
  measureOk : Bool
  temperatura : FVal
  humedad : FVal
  irValue : ℤ
  beatDetected : Bool
  tBeat1 : ℤ
  tBeat2 : ℤ
  accelAvail : Bool
  ax : ℚ
  ay : ℚ
  az : ℚ
  wifiConnected : Bool
  wifiIP : String
  uptimeMs : ℕ

/-- The process-wide mutable state relevant to acquisition ticks: the three
health flags set during bring-up (main.cpp lines 28-30) and never written
afterwards, the heart-rate state, and the `static int contador`. -/
structure SysState where
  htu21d_ok : Bool
  max30102_ok : Bool
  accel_ok : Bool
  heart : HeartState
  contador : ℕ

/-- State right after `setup()` given each sensor's `begin()` outcome. -/
def initState (h m a : Bool) : SysState :=
  { htu21d_ok := h, max30102_ok := m, accel_ok := a
    heart := initialHeart, contador := 0 }

/-! ## The publication list of one acquisition tick (main.cpp lines 128-267) -/

/-- The `resumen` payload built in setup() and every 10 ticks
(main.cpp lines 108-112 and 136-140). -/
def resumenStr (h m a : Bool) : String :=
  "Sensores activos: " ++ (if h then "HTU21D " else "") ++
    (if m then "MAX30105 " else "") ++ (if a then "MMA8452Q " else "") ++
    (if !h && !m && !a then "NINGUNO" else "")

/-- Publications of the `contador % 10 == 1` summary block (lines 135-143). -/
def resumenSection (c : ℕ) (h m a : Bool) : List (String × String) :=
  if c % 10 == 1 then [("sensores/resumen", resumenStr h m a)] else []

/-- Publications of the HTU21D block (lines 146-165). -/
def htuSection (ok : Bool) (inp : TickInput) : List (String × String) :=
  if ok then
    if inp.measureOk then
      (if tempValida inp.temperatura then
        [("sensores/temperatura", fmtFVal 2 inp.temperatura)]
       else [("sensores/error", "HTU21D: temperatura invalida")]) ++
      (if humValida inp.humedad then
        [("sensores/humedad", fmtFVal 2 inp.humedad)]
       else [("sensores/error", "HTU21D: humedad invalida")])
    else [("sensores/error", "HTU21D: fallo en medicion")]
  else []

/-- The finger classification of line 197. -/
def fingerStr (ir : ℤ) : String :=
  if ir < 50000 then "no_detectado" else "detectado"

/-- The `heart_data` JSON payload (lines 205-208). -/
def heartJson (ir : ℤ) (bpm : ℚ) (avg : ℕ) (fs : String) : String :=
  "\x7b\"ir\":" ++ toString ir ++ ",\"bpm\":" ++ toString (truncInt bpm) ++
    ",\"bpm_avg\":" ++ toString avg ++ ",\"finger\":\"" ++ fs ++ "\"\x7d"

/-- The MAX30105 block (lines 168-210): publishes `ir_value`, runs the beat
detector, then publishes the heart-rate figures from the updated state. -/
def maxSection (ok : Bool) (heart : HeartState) (inp : TickInput) :
    HeartState × List (String × String) :=
  if ok then
    let heart2 :=
      if inp.beatDetected then processBeat heart inp.tBeat1 inp.tBeat2 else heart
    (heart2,
      [("sensores/ir_value", toString inp.irValue),
       ("sensores/bpm", toString (truncInt heart2.beatsPerMinute)),
       ("sensores/bpm_avg", toString heart2.beatAvg),
       ("sensores/finger_status", fingerStr inp.irValue),
       ("sensores/heart_data",
         heartJson inp.irValue heart2.beatsPerMinute heart2.beatAvg
           (fingerStr inp.irValue))])
  else (heart, [])

/-- The orientation decision of lines 237-241. -/
def orientacionStr (x y z : ℚ) : String :=
  if |z| > |x| ∧ |z| > |y| then
    if z > 1/2 then "boca_arriba"
    else if z < -(1/2) then "boca_abajo"
    else "indefinida"
  else "indefinida"

/-- The movement decision `sqrt(x*x+y*y+z*z) > 1.5` of line 245, embedded by
squaring (both sides are nonnegative). -/
def movimientoStr (x y z : ℚ) : String :=
  if x * x + y * y + z * z > 9 / 4 then "SI" else "NO"

/-- The `accel_datos` JSON payload of line 248: note it embeds all three raw
axis values unconditionally. -/
def accelJson (x y z : ℚ) : String :=
  "\x7b\"x\":" ++ fmtFixed 3 x ++ ",\"y\":" ++ fmtFixed 3 y ++ ",\"z\":" ++
    fmtFixed 3 z ++ ",\"mag\":" ++ fmtFixed 3 (sqrtQ (x * x + y * y + z * z)) ++
    "\x7d"

/-- The MMA8452Q block (lines 213-254). -/
def accelSection (ok : Bool) (inp : TickInput) : List (String × String) :=
  if ok then
    if inp.accelAvail then
      (if -4 ≤ inp.ax ∧ inp.ax ≤ 4 then
        [("sensores/accel_x", fmtFixed 3 inp.ax)] else []) ++
      (if -4 ≤ inp.ay ∧ inp.ay ≤ 4 then
        [("sensores/accel_y", fmtFixed 3 inp.ay)] else []) ++
      (if -4 ≤ inp.az ∧ inp.az ≤ 4 then
        [("sensores/accel_z", fmtFixed 3 inp.az)] else []) ++
      [("sensores/accel_mag",
         fmtFixed 3 (sqrtQ (inp.ax * inp.ax + inp.ay * inp.ay + inp.az * inp.az))),
       ("sensores/orientacion", orientacionStr inp.ax inp.ay inp.az),
       ("sensores/movimiento", movimientoStr inp.ax inp.ay inp.az),
       ("sensores/accel_datos", accelJson inp.ax inp.ay inp.az)]
    else [("sensores/error", "MMA8452Q: sin nuevos datos")]
  else []

/-- The system-state block (lines 257-259). -/
def sistemaSection (inp : TickInput) : List (String × String) :=
  [("sistema/wifi_ip", inp.wifiIP),
   ("sistema/wifi_status", if inp.wifiConnected then "conectado" else "desconectado"),
   ("sistema/uptime", toString (inp.uptimeMs / 1000))]

/-- The `contador % 5 == 0` sensor-health echo (lines 262-266). -/
def estadoSection (c : ℕ) (h m a : Bool) : List (String × String) :=
  if c % 5 == 0 then
    [("sensores/estado_htu21d", if h then "OK" else "ERROR"),
     ("sensores/estado_max30105", if m then "OK" else "ERROR"),
     ("sensores/estado_mma8452q", if a then "OK" else "ERROR")]
  else []

/-- One acquisition tick (the body of `if (now - lastMsg > 2000)`,
lines 128-267): increments `contador`, publishes every block in source order,
and carries the heart-rate state update. -/
def tick (st : SysState) (inp : TickInput) : SysState × List (String × String) :=
  let c := st.contador + 1
  let hm := maxSection st.max30102_ok st.heart inp
  ({ st with heart := hm.1, contador := c },
    ("sensores/contador", toString c) ::
      (resumenSection c st.htu21d_ok st.max30102_ok st.accel_ok ++
       htuSection st.htu21d_ok inp ++
       hm.2 ++
       accelSection st.accel_ok inp ++
       sistemaSection inp ++
       estadoSection c st.htu21d_ok st.max30102_ok st.accel_ok))

/-- The per-tick trace of a session: each element is the state after that
tick paired with the publications of that tick. -/
def sessionTrace (st : SysState) : List TickInput → List (SysState × List (String × String))
  | [] => []
  | i :: is =>
      let r := tick st i
      r :: sessionTrace r.1 is

/-- Whether some publication in the list targets topic `t`. -/
def hasTopic (l : List (String × String)) (t : String) : Bool :=
  l.any (fun p => p.1 == t)

/-- Topics the HTU21D block can target. -/
def htuTopics : List String :=
  ["sensores/temperatura", "sensores/humedad", "sensores/error"]

/-- Topics the MAX30105 block can target. -/
def maxTopics : List String :=
  ["sensores/ir_value", "sensores/bpm", "sensores/bpm_avg",
   "sensores/finger_status", "sensores/heart_data"]

/-- Topics the MMA8452Q block can target. -/
def accelTopics : List String :=
  ["sensores/accel_x", "sensores/accel_y", "sensores/accel_z",
   "sensores/accel_mag", "sensores/orientacion", "sensores/movimiento",
   "sensores/accel_datos", "sensores/error"]

/-- The HTU21D sample-reading topics (its publications other than errors). -/
def htuReadings : List String := ["sensores/temperatura", "sensores/humedad"]

/-- The MMA8452Q sample-reading topics (its publications other than errors). -/
def accelReadings : List String :=
  ["sensores/accel_x", "sensores/accel_y", "sensores/accel_z",
   "sensores/accel_mag", "sensores/orientacion", "sensores/movimiento",
   "sensores/accel_datos"]

/-- Topics of the system-state block. -/
def sistemaTopics : List String :=
  ["sistema/wifi_ip", "sistema/wifi_status", "sistema/uptime"]

/-- Topics of the health-echo block. -/
def estadoTopics : List String :=
  ["sensores/estado_htu21d", "sensores/estado_max30105", "sensores/estado_mma8452q"]

/-- A benign concrete tick input used to instantiate universally quantified
theorems at a specific point. -/
def inpW : TickInput :=
  { measureOk := true, temperatura := .fin 25, humedad := .fin 50
    irValue := 60000, beatDetected := false, tBeat1 := 0, tBeat2 := 0
    accelAvail := true, ax := 0, ay := 0, az := 1
    wifiConnected := true, wifiIP := "192.168.0.2", uptimeMs := 4000 }

/-- A tick input whose environment measurement fails outright (so every
branch of the publication list is machine-checkable by evaluation). -/
def inpNoMeasure : TickInput :=
  { measureOk := false, temperatura := .nan, humedad := .nan
    irValue := 60000, beatDetected := false, tBeat1 := 0, tBeat2 := 0
    accelAvail := true, ax := 0, ay := 0, az := 1
    wifiConnected := true, wifiIP := "192.168.0.2", uptimeMs := 4000 }

/-- A tick input with an out-of-range x axis reading (5 g). -/
def inpC7 : TickInput :=
  { measureOk := false, temperatura := .nan, humedad := .nan
    irValue := 60000, beatDetected := false, tBeat1 := 0, tBeat2 := 0
    accelAvail := true, ax := 5, ay := 0, az := 1
    wifiConnected := true, wifiIP := "192.168.0.2", uptimeMs := 4000 }

/-- A tick input whose measurement succeeds with a NaN temperature and a
valid 50 %RH humidity. -/
def inpC10 : TickInput :=
  { measureOk := true, temperatura := .nan, humedad := .fin 50
    irValue := 60000, beatDetected := false, tBeat1 := 0, tBeat2 := 0
    accelAvail := true, ax := 0, ay := 0, az := 1
    wifiConnected := true, wifiIP := "192.168.0.2", uptimeMs := 4000 }

/-! ## The scheduler loop statics (main.cpp lines 117-132) -/

/-- The two `static` locals of `loop()` that survive across iterations:
`static unsigned long lastMsg = 0` and `static int contador = 0`. -/
structure LoopState where
  lastMsg : ℕ
  contador : ℕ

/-- Per-iteration environment: whether `client.connected()` was false at the
top of `loop()` (which routes through `reconnect`), and the value of
`millis()` at the cadence test. -/
structure LoopInput where
  brokerDown : Bool
  now : ℕ

/-- Statics at boot. -/
def loopStart : LoopState := ⟨0, 0⟩

/-- The cadence test `now - lastMsg > 2000` in 32-bit unsigned arithmetic. -/
def tickFired (lastMsg now : ℕ) : Bool :=
  decide ((((now : ℤ) - (lastMsg : ℤ)) % 2 ^ 32) > 2000)

/-- One iteration of `loop()` restricted to the tick statics: neither the
reconnect path nor `client.loop()` touches them; a fired tick stores `now`
into `lastMsg`, increments `contador` and publishes the new value (returned
as `some`). -/
def loopIter (st : LoopState) (inp : LoopInput) : LoopState × Option ℕ :=
  if tickFired st.lastMsg inp.now then
    (⟨inp.now, st.contador + 1⟩, some (st.contador + 1))
  else (st, none)

/-- The sequence of counter values published over a run of iterations. -/
def tickVals (st : LoopState) : List LoopInput → List ℕ
  | [] => []
  | i :: is =>
      match loopIter st i with
      | (st2, some c) => c :: tickVals st2 is
      | (st2, none) => tickVals st2 is

/-! ## The reconnect routine (main.cpp lines 51-59) -/

/-- Result of running `reconnect`'s `while (!client.connected())` retry loop
for at most `fuel` connection attempts, the outcome of attempt `n` being
`attempts n`: `some k` means attempt `k` succeeded and the routine returned;
`none` means every tried attempt failed and the routine is still looping
(after a 5 s delay per failure). -/
def reconnectRun (attempts : ℕ → Bool) (i : ℕ) : ℕ → Option ℕ
  | 0 => none
  | fuel + 1 => if attempts i then some i else reconnectRun attempts (i + 1) fuel

/-- Whether `reconnect()` returns (after finitely many attempts) for the
given outcome sequence. -/
def reconnectReturns (attempts : ℕ → Bool) : Prop :=
  ∃ fuel, (reconnectRun attempts 0 fuel).isSome = true

/-- An iteration of `loop()` that starts with the broker state `connected`
reaches its lower half (pump, cadence test, publications) iff it was already
connected or `reconnect` returns (main.cpp lines 118-121). -/
def loopIterReturns (connected : Bool) (attempts : ℕ → Bool) : Prop :=
  connected = true ∨ reconnectReturns attempts

/-- The environment in which no broker connection attempt ever succeeds. -/
def neverConnects : ℕ → Bool := fun _ => false

theorem avgInv_initial : AvgInv initialHeart := rfl

theorem avgInv_processBeat (s : HeartState) (t1 t2 : ℤ) (h : AvgInv s) :
    AvgInv (processBeat s t1 t2) := by
  unfold processBeat
  split
  · rfl
  · exact h

theorem avgInv_runBeats (evs : List (ℤ × ℤ)) : AvgInv (runBeats evs) := by
  unfold runBeats
  induction evs using List.reverseRecOn with
  | nil => exact avgInv_initial
  | append_singleton l e ih =>
      rw [List.foldl_append, List.foldl_cons, List.foldl_nil]
      exact avgInv_processBeat _ e.1 e.2 ih

/-- A gated BPM value in `(20, 255)` truncates to a byte in `[20, 254]`. -/
theorem stored_bounds (q : ℚ) (h1 : 20 < q) (h2 : q < 255) :
    20 ≤ Int.toNat ⌊q⌋ ∧ Int.toNat ⌊q⌋ ≤ 254 := by
  have ha : (20 : ℤ) ≤ ⌊q⌋ := Int.le_floor.mpr (by exact_mod_cast h1.le)
  have hb : ⌊q⌋ < 255 := Int.floor_lt.mpr (by exact_mod_cast h2)
  omega

theorem slotInv_initial : SlotInv initialHeart := fun _ => Or.inl rfl

theorem slotInv_processBeat (s : HeartState) (t1 t2 : ℤ) (h : SlotInv s) :
    SlotInv (processBeat s t1 t2) := by
  unfold processBeat
  split
  · rename_i hgate
    intro i
    dsimp only
    rcases eq_or_ne i s.rateSpot with hi | hi
    · rw [hi, Function.update_same]
      exact Or.inr (stored_bounds _ hgate.2 hgate.1)
    · rw [Function.update_noteq hi]
      exact h i
  · exact h

theorem slotInv_runBeats (evs : List (ℤ × ℤ)) : SlotInv (runBeats evs) := by
  unfold runBeats
  induction evs using List.reverseRecOn with
  | nil => exact slotInv_initial
  | append_singleton l e ih =>
      rw [List.foldl_append, List.foldl_cons, List.foldl_nil]
      exact slotInv_processBeat _ e.1 e.2 ih

theorem fourBeats_state :
    (runBeats fourBeats).rates 0 = 21 ∧ (runBeats fourBeats).rates 1 = 21 ∧
    (runBeats fourBeats).rates 2 = 21 ∧ (runBeats fourBeats).rates 3 = 22 ∧
    (runBeats fourBeats).beatAvg = 21 := by
  refine ⟨?_, ?_, ?_, ?_, ?_⟩ <;>
    · norm_num [runBeats, fourBeats, processBeat, bpmOf, initialHeart, ratesSum,
        Function.update]
      decide

theorem oneSlowBeat_state :
    (runBeats oneSlowBeat).rates 0 = 20 ∧ (runBeats oneSlowBeat).rateSpot = 1 := by
  constructor <;>
    · norm_num [runBeats, oneSlowBeat, processBeat, bpmOf, initialHeart, ratesSum,
        Function.update]
      first
      | decide
      | skip

/-- Claim C1 (counterexample): after four accepted beats (BPMs `150/7` thrice
and `200/9`) the ring buffer is `[21, 21, 21, 22]` — written 4 times — yet the
published `beatAvg` is `21`, not the arithmetic mean `85/4 = 21.25`: C integer
division truncates. -/
theorem C1_counterexample :
    (runBeats fourBeats).rates 0 = 21 ∧ (runBeats fourBeats).rates 1 = 21 ∧
    (runBeats fourBeats).rates 2 = 21 ∧ (runBeats fourBeats).rates 3 = 22 ∧
    ((runBeats fourBeats).beatAvg : ℚ) ≠ ((ratesSum (runBeats fourBeats).rates : ℕ) : ℚ) / 4 := by
  obtain ⟨h0, h1, h2, h3, ha⟩ := fourBeats_state
  rw [ratesSum, h0, h1, h2, h3, ha]
  norm_num

/-- Claim C1 (amended): in every estimator state reached from boot by any
sequence of detected beats, the published `beatAvg` equals the arithmetic mean
of the 4 ring-buffer slots rounded down, i.e. the slot sum integer-divided by
`RATE_SIZE = 4`. -/
theorem C1_beatAvg_floored_mean (evs : List (ℤ × ℤ)) :
    (runBeats evs).beatAvg = ratesSum (runBeats evs).rates / 4 :=
  avgInv_runBeats evs

/-- Claim C2 (counterexample): a detected beat with `delta = 2900` ms has
computed BPM `600/29 ≈ 20.69`, which passes the `20 < BPM < 255` gate, but is
stored as the byte `(byte)20.69 = 20`; the reached state has `20` in slot 0
(and the write index advanced), so a slot value not strictly above 20 does
appear in the ring buffer. -/
theorem C2_counterexample :
    (runBeats oneSlowBeat).rates 0 = 20 ∧ (runBeats oneSlowBeat).rateSpot = 1 ∧
    ¬ (20 < (runBeats oneSlowBeat).rates 0 ∧ (runBeats oneSlowBeat).rates 0 < 255) := by
  obtain ⟨h0, h1⟩ := oneSlowBeat_state
  exact ⟨h0, h1, by rw [h0]; omega⟩

/-- Claim C2 (amended): in every estimator state reached from boot, every
ring-buffer slot is either still its initial `0` (never written) or holds the
byte truncation of an accepted BPM, hence lies in `[20, 254]`; values from
beats whose BPM is outside the open interval `(20, 255)` are never inserted,
but the boundary value `20` itself can be stored. -/
theorem C2_slots_zero_or_20_254 (evs : List (ℤ × ℤ)) (i : Fin 4) :
    (runBeats evs).rates i = 0 ∨
      (20 ≤ (runBeats evs).rates i ∧ (runBeats evs).rates i ≤ 254) :=
  slotInv_runBeats evs i

/-! ## Topic bookkeeping lemmas -/

theorem hasTopic_false_of_sub (l : List (String × String)) (ts : List String)
    (t : String) (hsub : ∀ p ∈ l, p.1 ∈ ts) (ht : t ∉ ts) :
    hasTopic l t = false := by
  rw [hasTopic, List.any_eq_false]
  intro p hp he
  exact ht (eq_of_beq he ▸ hsub p hp)

theorem hasTopic_true_of_mem (l : List (String × String)) (t pay : String)
    (h : (t, pay) ∈ l) : hasTopic l t = true := by
  rw [hasTopic, List.any_eq_true]
  exact ⟨(t, pay), h, by simp⟩

theorem resumenSection_sub (c : ℕ) (h m a : Bool) :
    ∀ p ∈ resumenSection c h m a, p.1 = "sensores/resumen" := by
  intro p hp
  unfold resumenSection at hp
  split at hp
  · rw [List.mem_singleton] at hp
    rw [hp]
  · exact absurd hp (List.not_mem_nil p)

theorem htuSection_sub (ok : Bool) (inp : TickInput) :
    ∀ p ∈ htuSection ok inp, p.1 ∈ htuTopics := by
  intro p hp
  unfold htuSection at hp
  split at hp
  · split at hp
    · rcases List.mem_append.mp hp with h | h <;> split at h <;>
        rw [List.mem_singleton] at h <;> simp [h, htuTopics]
    · rw [List.mem_singleton] at hp
      simp [hp, htuTopics]
  · exact absurd hp (List.not_mem_nil p)

theorem maxSection_sub (ok : Bool) (heart : HeartState) (inp : TickInput) :
    ∀ p ∈ (maxSection ok heart inp).2, p.1 ∈ maxTopics := by
  intro p hp
  unfold maxSection at hp
  split at hp
  · simp only [List.mem_cons, List.not_mem_nil, or_false] at hp
    rcases hp with h | h | h | h | h <;> simp [h, maxTopics]
  · exact absurd hp (List.not_mem_nil p)

theorem accelSection_sub (ok : Bool) (inp : TickInput) :
    ∀ p ∈ accelSection ok inp, p.1 ∈ accelTopics := by
  intro p hp
  unfold accelSection at hp
  split at hp
  · split at hp
    · simp only [List.mem_append] at hp
      rcases hp with ((h | h) | h) | h
      · split at h <;>
          first
          | (rw [List.mem_singleton] at h; simp [h, accelTopics])
          | exact absurd h (List.not_mem_nil p)
      · split at h <;>
          first
          | (rw [List.mem_singleton] at h; simp [h, accelTopics])
          | exact absurd h (List.not_mem_nil p)
      · split at h <;>
          first
          | (rw [List.mem_singleton] at h; simp [h, accelTopics])
          | exact absurd h (List.not_mem_nil p)
      · simp only [List.mem_cons, List.not_mem_nil, or_false] at h
        rcases h with h | h | h | h <;> simp [h, accelTopics]
    · rw [List.mem_singleton] at hp
      simp [hp, accelTopics]
  · exact absurd hp (List.not_mem_nil p)

theorem sistemaSection_sub (inp : TickInput) :
    ∀ p ∈ sistemaSection inp, p.1 ∈ sistemaTopics := by
  intro p hp
  unfold sistemaSection at hp
  simp only [List.mem_cons, List.not_mem_nil, or_false] at hp
  rcases hp with h | h | h <;> simp [h, sistemaTopics]

theorem estadoSection_sub (c : ℕ) (h m a : Bool) :
    ∀ p ∈ estadoSection c h m a, p.1 ∈ estadoTopics := by
  intro p hp
  unfold estadoSection at hp
  split at hp
  · simp only [List.mem_cons, List.not_mem_nil, or_false] at hp
    rcases hp with h | h | h <;> simp [h, estadoTopics]
  · exact absurd hp (List.not_mem_nil p)

/-- The publication list of a tick, laid out by section. -/
theorem tick_snd (st : SysState) (inp : TickInput) :
    (tick st inp).2 =
      ("sensores/contador", toString (st.contador + 1)) ::
        (resumenSection (st.contador + 1) st.htu21d_ok st.max30102_ok st.accel_ok ++
         htuSection st.htu21d_ok inp ++
         (maxSection st.max30102_ok st.heart inp).2 ++
         accelSection st.accel_ok inp ++
         sistemaSection inp ++
         estadoSection (st.contador + 1) st.htu21d_ok st.max30102_ok st.accel_ok) := rfl

/-- Any publication of a tick is the counter publication, a publication of
one of the three sensor blocks, or targets one of the fixed bookkeeping
topics. -/
theorem tick_mem (st : SysState) (inp : TickInput) (p : String × String)
    (hp : p ∈ (tick st inp).2) :
    p.1 = "sensores/contador" ∨ p.1 = "sensores/resumen" ∨
    p ∈ htuSection st.htu21d_ok inp ∨
    p ∈ (maxSection st.max30102_ok st.heart inp).2 ∨
    p ∈ accelSection st.accel_ok inp ∨
    p.1 ∈ sistemaTopics ∨ p.1 ∈ estadoTopics := by
  rw [tick_snd] at hp
  rcases List.mem_cons.mp hp with h | h
  · exact Or.inl (by rw [h])
  · simp only [List.mem_append] at h
    rcases h with ((((h | h) | h) | h) | h) | h
    · right; left
      exact resumenSection_sub _ _ _ _ p h
    · right; right; left
      exact h
    · right; right; right; left
      exact h
    · right; right; right; right; left
      exact h
    · right; right; right; right; right; left
      exact sistemaSection_sub _ p h
    · right; right; right; right; right; right
      exact estadoSection_sub _ _ _ _ p h

theorem tick_flags (st : SysState) (inp : TickInput) :
    (tick st inp).1.htu21d_ok = st.htu21d_ok ∧
    (tick st inp).1.max30102_ok = st.max30102_ok ∧
    (tick st inp).1.accel_ok = st.accel_ok := ⟨rfl, rfl, rfl⟩

theorem htuSection_off (inp : TickInput) : htuSection false inp = [] := rfl

theorem maxSection_off (heart : HeartState) (inp : TickInput) :
    maxSection false heart inp = (heart, []) := rfl

theorem accelSection_off (inp : TickInput) : accelSection false inp = [] := rfl

theorem tick_htu_off (st : SysState) (inp : TickInput) (hst : st.htu21d_ok = false) :
    ∀ t ∈ htuReadings, hasTopic (tick st inp).2 t = false := by
  intro t ht
  fin_cases ht <;>
    · rw [hasTopic, List.any_eq_false]
      intro p hp he
      have hpt : p.1 = _ := eq_of_beq he
      rcases tick_mem st inp p hp with h | h | h | h | h | h | h
      · rw [hpt] at h; exact absurd h (by decide)
      · rw [hpt] at h; exact absurd h (by decide)
      · rw [hst, htuSection_off] at h
        exact absurd h (List.not_mem_nil p)
      · have h2 := maxSection_sub _ _ _ p h
        rw [hpt] at h2; exact absurd h2 (by decide)
      · have h2 := accelSection_sub _ _ p h
        rw [hpt] at h2; exact absurd h2 (by decide)
      · rw [hpt] at h; exact absurd h (by decide)
      · rw [hpt] at h; exact absurd h (by decide)

theorem tick_max_off (st : SysState) (inp : TickInput) (hst : st.max30102_ok = false) :
    ∀ t ∈ maxTopics, hasTopic (tick st inp).2 t = false := by
  intro t ht
  fin_cases ht <;>
    · rw [hasTopic, List.any_eq_false]
      intro p hp he
      have hpt : p.1 = _ := eq_of_beq he
      rcases tick_mem st inp p hp with h | h | h | h | h | h | h
      · rw [hpt] at h; exact absurd h (by decide)
      · rw [hpt] at h; exact absurd h (by decide)
      · have h2 := htuSection_sub _ _ p h
        rw [hpt] at h2; exact absurd h2 (by decide)
      · rw [hst] at h
        rw [show maxSection false st.heart inp = (st.heart, []) from rfl] at h
        exact absurd h (List.not_mem_nil p)
      · have h2 := accelSection_sub _ _ p h
        rw [hpt] at h2; exact absurd h2 (by decide)
      · rw [hpt] at h; exact absurd h (by decide)
      · rw [hpt] at h; exact absurd h (by decide)

theorem tick_accel_off (st : SysState) (inp : TickInput) (hst : st.accel_ok = false) :
    ∀ t ∈ accelReadings, hasTopic (tick st inp).2 t = false := by
  intro t ht
  fin_cases ht <;>
    · rw [hasTopic, List.any_eq_false]
      intro p hp he
      have hpt : p.1 = _ := eq_of_beq he
      rcases tick_mem st inp p hp with h | h | h | h | h | h | h
      · rw [hpt] at h; exact absurd h (by decide)
      · rw [hpt] at h; exact absurd h (by decide)
      · have h2 := htuSection_sub _ _ p h
        rw [hpt] at h2; exact absurd h2 (by decide)
      · have h2 := maxSection_sub _ _ _ p h
        rw [hpt] at h2; exact absurd h2 (by decide)
      · rw [hst, accelSection_off] at h
        exact absurd h (List.not_mem_nil p)
      · rw [hpt] at h; exact absurd h (by decide)
      · rw [hpt] at h; exact absurd h (by decide)

/-- Along any session suffix, health flags never change and a sensor whose
flag is off contributes no reading publication on any tick. -/
theorem sessionTrace_inv (inps : List TickInput) (st : SysState)
    (e : SysState × List (String × String)) (he : e ∈ sessionTrace st inps) :
    (e.1.htu21d_ok = st.htu21d_ok ∧ e.1.max30102_ok = st.max30102_ok ∧
      e.1.accel_ok = st.accel_ok) ∧
    (st.htu21d_ok = false → ∀ t ∈ htuReadings, hasTopic e.2 t = false) ∧
    (st.max30102_ok = false → ∀ t ∈ maxTopics, hasTopic e.2 t = false) ∧
    (st.accel_ok = false → ∀ t ∈ accelReadings, hasTopic e.2 t = false) := by
  induction inps generalizing st with
  | nil => exact absurd he (List.not_mem_nil e)
  | cons i is ih =>
      simp only [sessionTrace] at he
      rcases List.mem_cons.mp he with he | he
      · subst he
        exact ⟨tick_flags st i, tick_htu_off st i, tick_max_off st i,
          tick_accel_off st i⟩
      · obtain ⟨⟨f1, f2, f3⟩, o1, o2, o3⟩ := ih (tick st i).1 he
        exact ⟨⟨f1, f2, f3⟩, o1, o2, o3⟩

/-- Claim C3 (confirmed): if a sensor's initialize fails at boot its health
flag is false, stays false at every later tick (the loop never rewrites the
flags and never re-runs initialization), and none of that sensor's sample
readings is published on any tick of the session. -/
theorem C3_bringup_failure_permanent (h m a : Bool) (inps : List TickInput)
    (e : SysState × List (String × String))
    (he : e ∈ sessionTrace (initState h m a) inps) :
    (e.1.htu21d_ok = h ∧ e.1.max30102_ok = m ∧ e.1.accel_ok = a) ∧
    (h = false → ∀ t ∈ htuReadings, hasTopic e.2 t = false) ∧
    (m = false → ∀ t ∈ maxTopics, hasTopic e.2 t = false) ∧
    (a = false → ∀ t ∈ accelReadings, hasTopic e.2 t = false) :=
  sessionTrace_inv inps (initState h m a) e he

/-- Claim C3 witness: a one-tick session whose environment sensor failed
bring-up publishes neither temperature nor humidity and keeps the flag off. -/
theorem C3_witness :
    (tick (initState false true true) inpW).1.htu21d_ok = false ∧
    hasTopic (tick (initState false true true) inpW).2 "sensores/temperatura" = false ∧
    hasTopic (tick (initState false true true) inpW).2 "sensores/humedad" = false := by
  have h := C3_bringup_failure_permanent false true true [inpW]
    (tick (initState false true true) inpW) (by simp [sessionTrace])
  exact ⟨h.1.1, h.2.1 rfl "sensores/temperatura" (by decide),
    h.2.1 rfl "sensores/humedad" (by decide)⟩

/-- In the MAX30105 block the `finger_status` payload is exactly
`fingerStr irValue`. -/
theorem maxSection_finger_payload (heart : HeartState) (inp : TickInput) (pay : String)
    (h : ("sensores/finger_status", pay) ∈ (maxSection true heart inp).2) :
    pay = fingerStr inp.irValue := by
  unfold maxSection at h
  simp only [if_true, List.mem_cons, List.not_mem_nil, or_false, Prod.mk.injEq] at h
  rcases h with h | h | h | h | h <;>
    first
    | exact h.2
    | exact absurd h.1 (by decide)

/-- Claim C4 (confirmed): whenever the optical sensor is healthy, the tick
publishes exactly one `finger_status` payload, and that payload is
`no_detectado` iff the IR value read this tick is strictly below 50000,
`detectado` otherwise. -/
theorem C4_finger_threshold (st : SysState) (inp : TickInput)
    (hok : st.max30102_ok = true) :
    ("sensores/finger_status", fingerStr inp.irValue) ∈ (tick st inp).2 ∧
    (∀ pay, ("sensores/finger_status", pay) ∈ (tick st inp).2 →
      pay = fingerStr inp.irValue) ∧
    (fingerStr inp.irValue = "no_detectado" ↔ inp.irValue < 50000) ∧
    (fingerStr inp.irValue = "detectado" ↔ ¬ inp.irValue < 50000) := by
  refine ⟨?_, ?_, ?_, ?_⟩
  · rw [tick_snd, hok]
    simp [List.mem_append, maxSection]
  · intro pay hmem
    rcases tick_mem st inp _ hmem with h | h | h | h | h | h | h
    · have h2 : ("sensores/finger_status" : String) = "sensores/contador" := h
      exact absurd h2 (by decide)
    · have h2 : ("sensores/finger_status" : String) = "sensores/resumen" := h
      exact absurd h2 (by decide)
    · have h2 : ("sensores/finger_status" : String) ∈ htuTopics :=
        htuSection_sub _ _ _ h
      exact absurd h2 (by decide)
    · rw [hok] at h
      exact maxSection_finger_payload st.heart inp pay h
    · have h2 : ("sensores/finger_status" : String) ∈ accelTopics :=
        accelSection_sub _ _ _ h
      exact absurd h2 (by decide)
    · have h2 : ("sensores/finger_status" : String) ∈ sistemaTopics := h
      exact absurd h2 (by decide)
    · have h2 : ("sensores/finger_status" : String) ∈ estadoTopics := h
      exact absurd h2 (by decide)
  · unfold fingerStr
    split_ifs with hlt
    · simp [hlt]
    · simp only [hlt, iff_false]
      decide
  · unfold fingerStr
    split_ifs with hlt
    · simp only [hlt, not_true, iff_false]
      decide
    · simp [hlt]

/-- Claim C4 witness: with the optical sensor healthy and `ir = 60000` the
tick publishes `finger_status = detectado`, and indeed `¬ 60000 < 50000`. -/
theorem C4_witness :
    ("sensores/finger_status", "detectado") ∈ (tick (initState true true true) inpW).2 ∧
    ¬ ((60000 : ℤ) < 50000) := by
  have h := C4_finger_threshold (initState true true true) inpW rfl
  have hf : fingerStr inpW.irValue = "detectado" := rfl
  exact ⟨hf ▸ h.1, by decide⟩

theorem orientacion_up_iff (x y z : ℚ) :
    orientacionStr x y z = "boca_arriba" ↔ (|z| > |x| ∧ |z| > |y| ∧ z > 1/2) := by
  unfold orientacionStr
  split_ifs with h1 h2 h3
  · exact iff_of_true rfl ⟨h1.1, h1.2, h2⟩
  · exact iff_of_false (by decide) (fun hc => h2 hc.2.2)
  · exact iff_of_false (by decide) (fun hc => h2 hc.2.2)
  · exact iff_of_false (by decide) (fun hc => h1 ⟨hc.1, hc.2.1⟩)

theorem orientacion_down_iff (x y z : ℚ) :
    orientacionStr x y z = "boca_abajo" ↔ (|z| > |x| ∧ |z| > |y| ∧ z < -(1/2)) := by
  unfold orientacionStr
  split_ifs with h1 h2 h3
  · exact iff_of_false (by decide) (fun hc => by linarith [hc.2.2])
  · exact iff_of_true rfl ⟨h1.1, h1.2, h3⟩
  · exact iff_of_false (by decide) (fun hc => h3 hc.2.2)
  · exact iff_of_false (by decide) (fun hc => h1 ⟨hc.1, hc.2.1⟩)

theorem orientacion_undef (x y z : ℚ)
    (h1 : ¬ (|z| > |x| ∧ |z| > |y| ∧ z > 1/2))
    (h2 : ¬ (|z| > |x| ∧ |z| > |y| ∧ z < -(1/2))) :
    orientacionStr x y z = "indefinida" := by
  unfold orientacionStr
  split_ifs with hd hu hdn
  · exact absurd ⟨hd.1, hd.2, hu⟩ h1
  · exact absurd ⟨hd.1, hd.2, hdn⟩ h2
  · rfl
  · rfl

/-- In the MMA8452Q block the `orientacion` payload is exactly
`orientacionStr x y z`. -/
theorem accelSection_orient_payload (inp : TickInput) (pay : String)
    (h : ("sensores/orientacion", pay) ∈ accelSection true inp) :
    pay = orientacionStr inp.ax inp.ay inp.az := by
  unfold accelSection at h
  rw [if_pos rfl] at h
  split at h
  · simp only [List.mem_append] at h
    rcases h with ((h | h) | h) | h
    · split at h
      · rw [List.mem_singleton, Prod.mk.injEq] at h
        exact absurd h.1 (by decide)
      · exact absurd h (List.not_mem_nil _)
    · split at h
      · rw [List.mem_singleton, Prod.mk.injEq] at h
        exact absurd h.1 (by decide)
      · exact absurd h (List.not_mem_nil _)
    · split at h
      · rw [List.mem_singleton, Prod.mk.injEq] at h
        exact absurd h.1 (by decide)
      · exact absurd h (List.not_mem_nil _)
    · simp only [List.mem_cons, List.not_mem_nil, or_false, Prod.mk.injEq] at h
      rcases h with h | h | h | h <;>
        first
        | exact h.2
        | exact absurd h.1 (by decide)
  · rw [List.mem_singleton, Prod.mk.injEq] at h
    exact absurd h.1 (by decide)

/-- Claim C5 (confirmed): when the accelerometer block runs, the single
`orientacion` payload of the tick is `boca_arriba` exactly when
`|z| > |x| ∧ |z| > |y| ∧ z > 0.5`, `boca_abajo` exactly when
`|z| > |x| ∧ |z| > |y| ∧ z < -0.5`, and `indefinida` otherwise; in
particular at most one of the two face labels can be reported in a tick. -/
theorem C5_orientation_rule (st : SysState) (inp : TickInput)
    (hok : st.accel_ok = true) (hav : inp.accelAvail = true) :
    ("sensores/orientacion", orientacionStr inp.ax inp.ay inp.az) ∈ (tick st inp).2 ∧
    (∀ pay, ("sensores/orientacion", pay) ∈ (tick st inp).2 →
      pay = orientacionStr inp.ax inp.ay inp.az) ∧
    (orientacionStr inp.ax inp.ay inp.az = "boca_arriba" ↔
      (|inp.az| > |inp.ax| ∧ |inp.az| > |inp.ay| ∧ inp.az > 1/2)) ∧
    (orientacionStr inp.ax inp.ay inp.az = "boca_abajo" ↔
      (|inp.az| > |inp.ax| ∧ |inp.az| > |inp.ay| ∧ inp.az < -(1/2))) ∧
    (¬ (|inp.az| > |inp.ax| ∧ |inp.az| > |inp.ay| ∧ inp.az > 1/2) →
     ¬ (|inp.az| > |inp.ax| ∧ |inp.az| > |inp.ay| ∧ inp.az < -(1/2)) →
      orientacionStr inp.ax inp.ay inp.az = "indefinida") := by
  refine ⟨?_, ?_, orientacion_up_iff _ _ _, orientacion_down_iff _ _ _,
    orientacion_undef _ _ _⟩
  · rw [tick_snd, hok]
    simp [List.mem_append, accelSection, hav]
  · intro pay hmem
    rcases tick_mem st inp _ hmem with h | h | h | h | h | h | h
    · have h2 : ("sensores/orientacion" : String) = "sensores/contador" := h
      exact absurd h2 (by decide)
    · have h2 : ("sensores/orientacion" : String) = "sensores/resumen" := h
      exact absurd h2 (by decide)
    · have h2 : ("sensores/orientacion" : String) ∈ htuTopics :=
        htuSection_sub _ _ _ h
      exact absurd h2 (by decide)
    · have h2 : ("sensores/orientacion" : String) ∈ maxTopics :=
        maxSection_sub _ _ _ _ h
      exact absurd h2 (by decide)
    · rw [hok] at h
      exact accelSection_orient_payload inp pay h
    · have h2 : ("sensores/orientacion" : String) ∈ sistemaTopics := h
      exact absurd h2 (by decide)
    · have h2 : ("sensores/orientacion" : String) ∈ estadoTopics := h
      exact absurd h2 (by decide)

/-- Claim C5 witness: with `(x, y, z) = (0, 0, 1)` the tick reports
`boca_arriba`, and the dominance condition indeed holds at that input. -/
theorem C5_witness :
    ("sensores/orientacion", "boca_arriba") ∈ (tick (initState true true true) inpW).2 ∧
    (|(1 : ℚ)| > |(0 : ℚ)| ∧ |(1 : ℚ)| > |(0 : ℚ)| ∧ (1 : ℚ) > 1/2) := by
  have h := C5_orientation_rule (initState true true true) inpW rfl rfl
  have ho : orientacionStr inpW.ax inpW.ay inpW.az = "boca_arriba" := by
    norm_num [orientacionStr, inpW]
  exact ⟨ho ▸ h.1, by norm_num⟩

/-- When the accelerometer reports no fresh sample, its block publishes only
the error notice. -/
theorem accelSection_noData (inp : TickInput) (hav : inp.accelAvail = false) :
    accelSection true inp = [("sensores/error", "MMA8452Q: sin nuevos datos")] := by
  unfold accelSection
  rw [if_pos rfl, if_neg (by simp [hav])]

theorem tick_orientacion_eq (st : SysState) (inp : TickInput) :
    hasTopic (tick st inp).2 "sensores/orientacion" =
      (st.accel_ok && inp.accelAvail) := by
  cases hok : st.accel_ok with
  | false =>
      rw [Bool.false_and]
      exact tick_accel_off st inp hok _ (by decide)
  | true =>
      rw [Bool.true_and]
      cases hav : inp.accelAvail with
      | true =>
          apply hasTopic_true_of_mem _ _ (orientacionStr inp.ax inp.ay inp.az)
          rw [tick_snd, hok]
          simp [List.mem_append, accelSection, hav]
      | false =>
          rw [hasTopic, List.any_eq_false]
          intro p hp he
          have hpt : p.1 = "sensores/orientacion" := eq_of_beq he
          rcases tick_mem st inp p hp with h | h | h | h | h | h | h
          · rw [hpt] at h; exact absurd h (by decide)
          · rw [hpt] at h; exact absurd h (by decide)
          · have h2 := htuSection_sub _ _ _ h
            rw [hpt] at h2; exact absurd h2 (by decide)
          · have h2 := maxSection_sub _ _ _ _ h
            rw [hpt] at h2; exact absurd h2 (by decide)
          · rw [hok, accelSection_noData inp hav, List.mem_singleton] at h
            have h2 : p.1 = "sensores/error" := by rw [h]
            rw [hpt] at h2
            exact absurd h2 (by decide)
          · rw [hpt] at h; exact absurd h (by decide)
          · rw [hpt] at h; exact absurd h (by decide)

theorem tick_movimiento_eq (st : SysState) (inp : TickInput) :
    hasTopic (tick st inp).2 "sensores/movimiento" =
      (st.accel_ok && inp.accelAvail) := by
  cases hok : st.accel_ok with
  | false =>
      rw [Bool.false_and]
      exact tick_accel_off st inp hok _ (by decide)
  | true =>
      rw [Bool.true_and]
      cases hav : inp.accelAvail with
      | true =>
          apply hasTopic_true_of_mem _ _ (movimientoStr inp.ax inp.ay inp.az)
          rw [tick_snd, hok]
          simp [List.mem_append, accelSection, hav]
      | false =>
          rw [hasTopic, List.any_eq_false]
          intro p hp he
          have hpt : p.1 = "sensores/movimiento" := eq_of_beq he
          rcases tick_mem st inp p hp with h | h | h | h | h | h | h
          · rw [hpt] at h; exact absurd h (by decide)
          · rw [hpt] at h; exact absurd h (by decide)
          · have h2 := htuSection_sub _ _ _ h
            rw [hpt] at h2; exact absurd h2 (by decide)
          · have h2 := maxSection_sub _ _ _ _ h
            rw [hpt] at h2; exact absurd h2 (by decide)
          · rw [hok, accelSection_noData inp hav, List.mem_singleton] at h
            have h2 : p.1 = "sensores/error" := by rw [h]
            rw [hpt] at h2
            exact absurd h2 (by decide)
          · rw [hpt] at h; exact absurd h (by decide)
          · rw [hpt] at h; exact absurd h (by decide)

/-- Claim C9 (counterexample): on a tick whose accelerometer failed bring-up,
neither `sensores/orientacion` nor `sensores/movimiento` is published, so the
two topics are not published on every acquisition tick. -/
theorem C9_counterexample :
    (initState true true false).accel_ok = false ∧
    hasTopic (tick (initState true true false) inpNoMeasure).2
      "sensores/orientacion" = false ∧
    hasTopic (tick (initState true true false) inpNoMeasure).2
      "sensores/movimiento" = false :=
  ⟨rfl, by decide, by decide⟩

/-- Claim C9 (amended): `sensores/orientacion` and `sensores/movimiento` are
published on exactly those acquisition ticks where the accelerometer is
healthy and reports fresh data (`accel.available()`); on other ticks they are
absent. -/
theorem C9_orientation_movement_cadence (st : SysState) (inp : TickInput) :
    hasTopic (tick st inp).2 "sensores/orientacion" =
      (st.accel_ok && inp.accelAvail) ∧
    hasTopic (tick st inp).2 "sensores/movimiento" =
      (st.accel_ok && inp.accelAvail) :=
  ⟨tick_orientacion_eq st inp, tick_movimiento_eq st inp⟩

theorem tick_accel_x_absent (st : SysState) (inp : TickInput)
    (hok : st.accel_ok = true) (hav : inp.accelAvail = true)
    (hx : ¬ (-4 ≤ inp.ax ∧ inp.ax ≤ 4)) :
    hasTopic (tick st inp).2 "sensores/accel_x" = false := by
  rw [hasTopic, List.any_eq_false]
  intro p hp he
  have hpt : p.1 = "sensores/accel_x" := eq_of_beq he
  rcases tick_mem st inp p hp with h | h | h | h | h | h | h
  · rw [hpt] at h; exact absurd h (by decide)
  · rw [hpt] at h; exact absurd h (by decide)
  · have h2 := htuSection_sub _ _ _ h
    rw [hpt] at h2; exact absurd h2 (by decide)
  · have h2 := maxSection_sub _ _ _ _ h
    rw [hpt] at h2; exact absurd h2 (by decide)
  · rw [hok] at h
    unfold accelSection at h
    rw [if_pos rfl, if_pos hav, if_neg hx] at h
    simp only [List.nil_append, List.mem_append] at h
    rcases h with (h | h) | h
    · split at h
      · rw [List.mem_singleton] at h
        subst h
        simp at hpt
      · exact absurd h (List.not_mem_nil p)
    · split at h
      · rw [List.mem_singleton] at h
        subst h
        simp at hpt
      · exact absurd h (List.not_mem_nil p)
    · simp only [List.mem_cons, List.not_mem_nil, or_false] at h
      rcases h with h | h | h | h <;> subst h <;> simp at hpt
  · rw [hpt] at h; exact absurd h (by decide)
  · rw [hpt] at h; exact absurd h (by decide)

theorem tick_accel_y_absent (st : SysState) (inp : TickInput)
    (hok : st.accel_ok = true) (hav : inp.accelAvail = true)
    (hy : ¬ (-4 ≤ inp.ay ∧ inp.ay ≤ 4)) :
    hasTopic (tick st inp).2 "sensores/accel_y" = false := by
  rw [hasTopic, List.any_eq_false]
  intro p hp he
  have hpt : p.1 = "sensores/accel_y" := eq_of_beq he
  rcases tick_mem st inp p hp with h | h | h | h | h | h | h
  · rw [hpt] at h; exact absurd h (by decide)
  · rw [hpt] at h; exact absurd h (by decide)
  · have h2 := htuSection_sub _ _ _ h
    rw [hpt] at h2; exact absurd h2 (by decide)
  · have h2 := maxSection_sub _ _ _ _ h
    rw [hpt] at h2; exact absurd h2 (by decide)
  · rw [hok] at h
    unfold accelSection at h
    rw [if_pos rfl, if_pos hav, if_neg hy] at h
    simp only [List.append_nil, List.mem_append] at h
    rcases h with (h | h) | h
    · split at h
      · rw [List.mem_singleton] at h
        subst h
        simp at hpt
      · exact absurd h (List.not_mem_nil p)
    · split at h
      · rw [List.mem_singleton] at h
        subst h
        simp at hpt
      · exact absurd h (List.not_mem_nil p)
    · simp only [List.mem_cons, List.not_mem_nil, or_false] at h
      rcases h with h | h | h | h <;> subst h <;> simp at hpt
  · rw [hpt] at h; exact absurd h (by decide)
  · rw [hpt] at h; exact absurd h (by decide)

theorem tick_accel_z_absent (st : SysState) (inp : TickInput)
    (hok : st.accel_ok = true) (hav : inp.accelAvail = true)
    (hz : ¬ (-4 ≤ inp.az ∧ inp.az ≤ 4)) :
    hasTopic (tick st inp).2 "sensores/accel_z" = false := by
  rw [hasTopic, List.any_eq_false]
  intro p hp he
  have hpt : p.1 = "sensores/accel_z" := eq_of_beq he
  rcases tick_mem st inp p hp with h | h | h | h | h | h | h
  · rw [hpt] at h; exact absurd h (by decide)
  · rw [hpt] at h; exact absurd h (by decide)
  · have h2 := htuSection_sub _ _ _ h
    rw [hpt] at h2; exact absurd h2 (by decide)
  · have h2 := maxSection_sub _ _ _ _ h
    rw [hpt] at h2; exact absurd h2 (by decide)
  · rw [hok] at h
    unfold accelSection at h
    rw [if_pos rfl, if_pos hav, if_neg hz] at h
    simp only [List.append_nil, List.mem_append] at h
    rcases h with (h | h) | h
    · split at h
      · rw [List.mem_singleton] at h
        subst h
        simp at hpt
      · exact absurd h (List.not_mem_nil p)
    · split at h
      · rw [List.mem_singleton] at h
        subst h
        simp at hpt
      · exact absurd h (List.not_mem_nil p)
    · simp only [List.mem_cons, List.not_mem_nil, or_false] at h
      rcases h with h | h | h | h <;> subst h <;> simp at hpt
  · rw [hpt] at h; exact absurd h (by decide)
  · rw [hpt] at h; exact absurd h (by decide)

/-- Claim C7 (counterexample): with `x = 5` g (outside `[-4, 4]`), the tick
still publishes `sensores/accel_datos`, whose payload renders the raw
out-of-range value `5` as `5.000`; so the value is not suppressed from every
published payload of the tick. -/
theorem C7_counterexample :
    ¬ (-4 ≤ (5 : ℚ) ∧ (5 : ℚ) ≤ 4) ∧
    ("sensores/accel_datos", accelJson 5 0 1) ∈
      (tick (initState true true true) inpC7).2 ∧
    accelJson 5 0 1 =
      "\x7b\"x\":" ++ fmtFixed 3 5 ++
        (",\"y\":" ++ fmtFixed 3 0 ++ (",\"z\":" ++ fmtFixed 3 1 ++
          (",\"mag\":" ++ fmtFixed 3 (sqrtQ (5 * 5 + 0 * 0 + 1 * 1)) ++ "\x7d"))) ∧
    fmtFixed 3 5 = "5.000" ∧
    accelJson 5 0 1 = "\x7b\"x\":5.000,\"y\":0.000,\"z\":1.000,\"mag\":5.099\x7d" := by
  have hs : sqrtQ (5 * 5 + 0 * 0 + 1 * 1 : ℚ) = 5099 / 1000 := by
    have h : (⌊(5 * 5 + 0 * 0 + 1 * 1 : ℚ) * 1000000⌋ : ℤ) = 26000000 := by norm_num
    simp only [sqrtQ]
    rw [h, show ((26000000 : ℤ).toNat) = 26000000 from rfl,
      show Nat.sqrt 26000000 = 5099 from by norm_num]
    norm_num
  have r5 : round ((5 : ℚ) * (10 : ℚ) ^ (3 : ℕ)) = 5000 := by norm_num [round_eq]
  have r0 : round ((0 : ℚ) * (10 : ℚ) ^ (3 : ℕ)) = 0 := by norm_num [round_eq]
  have r1 : round ((1 : ℚ) * (10 : ℚ) ^ (3 : ℕ)) = 1000 := by norm_num [round_eq]
  have rm : round ((5099 / 1000 : ℚ) * (10 : ℚ) ^ (3 : ℕ)) = 5099 := by
    norm_num [round_eq]
  refine ⟨by norm_num, ?_, ?_, ?_, ?_⟩
  · rw [tick_snd]
    simp [accelSection, inpC7, initState, List.mem_append]
  · simp only [accelJson, String.append_assoc]
  · simp only [fmtFixed]
    rw [r5]
    decide
  · simp only [accelJson, hs, fmtFixed]
    rw [r5, r0, r1, rm]
    decide

/-- Claim C7 (amended): when the accelerometer is healthy and has data, an
axis value outside `[-4, 4]` g suppresses only that axis's dedicated topic
(`sensores/accel_x`, `_y`, `_z`) and leaves the sensor healthy; the raw value
still reaches the broker inside the combined `sensores/accel_datos` JSON
payload (and feeds the magnitude). -/
theorem C7_axis_range_filter (st : SysState) (inp : TickInput)
    (hok : st.accel_ok = true) (hav : inp.accelAvail = true) :
    (¬ (-4 ≤ inp.ax ∧ inp.ax ≤ 4) →
      hasTopic (tick st inp).2 "sensores/accel_x" = false) ∧
    (¬ (-4 ≤ inp.ay ∧ inp.ay ≤ 4) →
      hasTopic (tick st inp).2 "sensores/accel_y" = false) ∧
    (¬ (-4 ≤ inp.az ∧ inp.az ≤ 4) →
      hasTopic (tick st inp).2 "sensores/accel_z" = false) ∧
    (tick st inp).1.accel_ok = true ∧
    ("sensores/accel_datos", accelJson inp.ax inp.ay inp.az) ∈ (tick st inp).2 := by
  refine ⟨tick_accel_x_absent st inp hok hav, tick_accel_y_absent st inp hok hav,
    tick_accel_z_absent st inp hok hav, hok, ?_⟩
  rw [tick_snd, hok]
  simp [accelSection, hav, List.mem_append]

/-- Claim C7 witness: at `x = 5` g the dedicated topic is absent while the
accelerometer stays healthy. -/
theorem C7_witness :
    ¬ (-4 ≤ (5 : ℚ) ∧ (5 : ℚ) ≤ 4) ∧
    hasTopic (tick (initState true true true) inpC7).2 "sensores/accel_x" = false ∧
    (tick (initState true true true) inpC7).1.accel_ok = true := by
  have h := C7_axis_range_filter (initState true true true) inpC7 rfl rfl
  have hx : ¬ (-4 ≤ inpC7.ax ∧ inpC7.ax ≤ 4) := by norm_num [inpC7]
  exact ⟨by norm_num, h.1 hx, h.2.2.2.1⟩

/-- Claim C10 (confirmed): on a tick where the environment measurement
succeeds, temperature and humidity are validated independently: each valid
reading is published and each invalid reading produces its own error
publication, regardless of the other reading's validity; a reading is valid
exactly when it is finite and inside its physical range. -/
theorem C10_env_validation_independent (st : SysState) (inp : TickInput)
    (hok : st.htu21d_ok = true) (hme : inp.measureOk = true) :
    (tempValida inp.temperatura = true →
      ("sensores/temperatura", fmtFVal 2 inp.temperatura) ∈ (tick st inp).2) ∧
    (tempValida inp.temperatura = false →
      ("sensores/error", "HTU21D: temperatura invalida") ∈ (tick st inp).2) ∧
    (humValida inp.humedad = true →
      ("sensores/humedad", fmtFVal 2 inp.humedad) ∈ (tick st inp).2) ∧
    (humValida inp.humedad = false →
      ("sensores/error", "HTU21D: humedad invalida") ∈ (tick st inp).2) ∧
    (∀ q : ℚ, tempValida (.fin q) = true ↔ (-40 ≤ q ∧ q ≤ 125)) ∧
    (tempValida .nan = false ∧ ∀ b, tempValida (.inf b) = false) ∧
    (∀ q : ℚ, humValida (.fin q) = true ↔ (0 ≤ q ∧ q ≤ 100)) ∧
    (humValida .nan = false ∧ ∀ b, humValida (.inf b) = false) := by
  refine ⟨?_, ?_, ?_, ?_, ?_, ⟨rfl, ?_⟩, ?_, ⟨rfl, ?_⟩⟩
  · intro hv
    rw [tick_snd, hok]
    simp [htuSection, hme, hv, List.mem_append]
  · intro hv
    rw [tick_snd, hok]
    simp [htuSection, hme, hv, List.mem_append]
  · intro hv
    rw [tick_snd, hok]
    simp [htuSection, hme, hv, List.mem_append]
  · intro hv
    rw [tick_snd, hok]
    simp [htuSection, hme, hv, List.mem_append]
  · intro q
    simp [tempValida, FVal.isnanB, FVal.geQ, FVal.leQ]
  · intro b
    cases b <;> rfl
  · intro q
    simp [humValida, FVal.isnanB, FVal.geQ, FVal.leQ]
  · intro b
    cases b <;> rfl

/-- Claim C10 witness: a NaN temperature yields the temperature-error
publication while the valid humidity of the same tick is still published. -/
theorem C10_witness :
    tempValida FVal.nan = false ∧ humValida (FVal.fin 50) = true ∧
    ("sensores/error", "HTU21D: temperatura invalida") ∈
      (tick (initState true true true) inpC10).2 ∧
    ("sensores/humedad", fmtFVal 2 (FVal.fin 50)) ∈
      (tick (initState true true true) inpC10).2 := by
  have h := C10_env_validation_independent (initState true true true) inpC10 rfl rfl
  have hv : humValida inpC10.humedad = true := by
    norm_num [inpC10, humValida, FVal.isnanB, FVal.geQ, FVal.leQ]
  exact ⟨rfl, hv, h.2.1 rfl, h.2.2.1 hv⟩

/-! ## The tick counter across iterations -/

theorem tickVals_cons_fired (st : LoopState) (i : LoopInput) (is : List LoopInput)
    (h : tickFired st.lastMsg i.now = true) :
    tickVals st (i :: is) =
      (st.contador + 1) :: tickVals ⟨i.now, st.contador + 1⟩ is := by
  simp [tickVals, loopIter, h]

theorem tickVals_cons_skip (st : LoopState) (i : LoopInput) (is : List LoopInput)
    (h : tickFired st.lastMsg i.now = false) :
    tickVals st (i :: is) = tickVals st is := by
  simp [tickVals, loopIter, h]

theorem tickVals_head (inps : List LoopInput) :
    ∀ (st : LoopState) (c : ℕ), (tickVals st inps).head? = some c →
      c = st.contador + 1 := by
  induction inps with
  | nil =>
      intro st c hc
      simp [tickVals] at hc
  | cons i is ih =>
      intro st c hc
      cases h : tickFired st.lastMsg i.now with
      | true =>
          rw [tickVals_cons_fired st i is h] at hc
          rw [List.head?_cons, Option.some.injEq] at hc
          exact hc.symm
      | false =>
          rw [tickVals_cons_skip st i is h] at hc
          exact ih st c hc

theorem tickVals_chain (inps : List LoopInput) :
    ∀ st : LoopState, List.Chain' (fun a b => b = a + 1) (tickVals st inps) := by
  induction inps with
  | nil =>
      intro st
      simp [tickVals]
  | cons i is ih =>
      intro st
      cases h : tickFired st.lastMsg i.now with
      | true =>
          rw [tickVals_cons_fired st i is h]
          refine List.Chain'.cons' (ih _) ?_
          intro c hc
          rw [Option.mem_def] at hc
          rw [tickVals_head is _ c hc]
      | false =>
          rw [tickVals_cons_skip st i is h]
          exact ih st

/-- Claim C8 (confirmed): the published counter values of a session form the
sequence 1, 2, 3, …: each consecutive pair increases by exactly one; and one
loop iteration's effect on the statics does not depend on whether the broker
was disconnected at its top (reconnect touches neither `lastMsg` nor
`contador`), so the counter resumes from its last value after reconnection. -/
theorem C8_tick_counter (inps : List LoopInput) :
    List.Chain' (fun a b => b = a + 1) (tickVals loopStart inps) ∧
    (∀ (st : LoopState) (b1 b2 : Bool) (n : ℕ),
      loopIter st ⟨b1, n⟩ = loopIter st ⟨b2, n⟩) :=
  ⟨tickVals_chain inps loopStart, fun _ _ _ _ => rfl⟩

/-! ## Reconnect termination -/

theorem reconnectRun_none (i fuel : ℕ) : reconnectRun neverConnects i fuel = none := by
  induction fuel generalizing i with
  | zero => rfl
  | succ n ih => simp [reconnectRun, neverConnects, ih]

theorem reconnectRun_isSome_ex (attempts : ℕ → Bool) :
    ∀ (fuel i : ℕ), (reconnectRun attempts i fuel).isSome = true →
      ∃ n, attempts n = true := by
  intro fuel
  induction fuel with
  | zero =>
      intro i h
      simp [reconnectRun] at h
  | succ n ih =>
      intro i h
      rw [reconnectRun] at h
      by_cases ha : attempts i = true
      · exact ⟨i, ha⟩
      · rw [if_neg (by simpa using ha)] at h
        exact ih (i + 1) h

theorem reconnectRun_isSome_of (attempts : ℕ → Bool) :
    ∀ (k i : ℕ), attempts (i + k) = true →
      (reconnectRun attempts i (k + 1)).isSome = true := by
  intro k
  induction k with
  | zero =>
      intro i h
      simp only [Nat.add_zero] at h
      simp [reconnectRun, h]
  | succ kk ih =>
      intro i h
      rw [reconnectRun]
      by_cases ha : attempts i = true
      · simp [ha]
      · rw [if_neg (by simpa using ha)]
        have h2 : i + 1 + kk = i + (kk + 1) := by omega
        exact ih (i + 1) (by rw [h2]; exact h)

/-- Claim C6 (counterexample): in an execution where no broker connection
attempt ever succeeds, the loop iteration does not return to its top — it is
stuck inside `reconnect`'s retry loop — contradicting the claim that the main
loop keeps running in that case. -/
theorem C6_counterexample : ¬ loopIterReturns false neverConnects := by
  rintro (h | ⟨fuel, h⟩)
  · simp at h
  · rw [reconnectRun_none] at h
    simp at h

/-- Claim C6 (amended): when the broker is not connected, the loop blocks
inside `reconnect`, which retries (with a 5 s delay per failed attempt)
indefinitely; the iteration reaches the rest of the loop body again exactly
when some connection attempt succeeds — so the device does recover and
resume once the network returns, but while the broker stays unreachable the
loop never returns to its top and nothing is published. -/
theorem C6_loop_blocks_in_reconnect (connected : Bool) (attempts : ℕ → Bool) :
    loopIterReturns connected attempts ↔
      (connected = true ∨ ∃ n, attempts n = true) := by
  unfold loopIterReturns reconnectReturns
  constructor
  · rintro (hc | ⟨fuel, hs⟩)
    · exact Or.inl hc
    · exact Or.inr (reconnectRun_isSome_ex attempts fuel 0 hs)
  · rintro (hc | ⟨n, hn⟩)
    · exact Or.inl hc
    · exact Or.inr ⟨n + 1, reconnectRun_isSome_of attempts n 0 (by simpa using hn)⟩

end Pulsera
